import Mathlib

/-!
# Carbon footprint calculator: embedding and verified properties

A shallow embedding of `Carbon_Footprint_Calculator.cpp`.

Modelling conventions
* `double` is modelled by exact rational arithmetic (`ℚ`): rounding, infinities and NaN
  are outside the model. Every comparison of the source (`<= 0`) is the comparison of `ℚ`.
* The guards of the source compare with `<= 0`, which is false of a NaN. Their behaviour on a
  NaN is modelled apart, in the namespace `WithNaN`, where a `double` is a number or NaN.
* A C++ exception is a value of `Exception`; a member function that may throw returns
  `Except Exception _`.
* A non-const member function is a state transformer: it returns its outcome together with
  the state of the object after the call, so that the state after a throwing call is
  observable. `return *this` is modelled by returning the state of the object after the call.
* A constructor that throws yields no object: constructors return `Except Exception _`.
* The text that `operator<<` writes for a `double` is a parameter `fmt : ℚ → String` of the
  reports and of `main`; the streams `cout` and `cerr` are the texts written to them.
-/

namespace CarbonFootprintCalculator

/-- The two exception classes thrown by the program, with their `what()` message. -/
inductive Exception where
  | invalid_argument (what : String)
  | runtime_error (what : String)
  deriving DecidableEq, Repr

/-- The message carried by an exception (`e.what()`). -/
def Exception.what : Exception → String
  | .invalid_argument w => w
  | .runtime_error w => w

/-- The text `label` occurs as a contiguous part of `message`. -/
def mentions (message label : String) : Prop :=
  label.data <:+: message.data

instance (message label : String) : Decidable (mentions message label) :=
  inferInstanceAs (Decidable (label.data <:+: message.data))

/-- The state in which `std::move` leaves the `std::string` it moved from once the target has
been move-constructed: libstdc++, libc++ and the MSVC library all leave it empty. -/
def movedFrom (_s : String) : String := ""

/-- The struct `Co2Source`; the constructor argument `qty` defaults to `0`. -/
structure Co2Source where
  source_name : String
  units : String
  co2_emission_factor : ℚ
  quantity : ℚ := 0
  deriving DecidableEq, Repr

/-- The member `Co2Source::calculateEmissions`. -/
def Co2Source.calculateEmissions (self : Co2Source) : ℚ :=
  self.co2_emission_factor * self.quantity

/-- The class `Building` (members in declaration order). -/
structure Building where
  co2_sources : List Co2Source
  name : String
  deriving DecidableEq, Repr

/-- The constructor `Building::Building(string building_name)`. -/
def Building.new (building_name : String) : Building :=
  { co2_sources := [], name := building_name }

/-- The member `Building::getCarbonFootprint`: the loop accumulates from `0` over the vector,
then the non-positive total throws `runtime_error`. -/
def Building.getCarbonFootprint (self : Building) : Except Exception ℚ :=
  let total_emissions : ℚ :=
    self.co2_sources.foldl (fun total source => total + source.calculateEmissions) 0
  if total_emissions ≤ 0 then
    .error (.runtime_error ("Emission data is incomplete for building: " ++ self.name))
  else
    .ok total_emissions

/-- The member `Building::addSource`: outcome and state of the building after the call. -/
def Building.addSource (self : Building) (source : Co2Source) :
    Except Exception Building × Building :=
  if source.quantity ≤ 0 then
    (.error (.invalid_argument ("Quantity must be positive for source: " ++ source.source_name)),
      self)
  else
    let self1 : Building := { self with co2_sources := self.co2_sources ++ [source] }
    (.ok self1, self1)

/-- The class `Car` (members in declaration order). -/
structure Car where
  model : String
  fuel_type : Co2Source
  secondary_co2_sources : List Co2Source
  fuel_efficiency : ℚ
  mileage : ℚ
  deriving DecidableEq, Repr

/-- The constructor `Car::Car`. The member initialiser `model(std::move(model))` moves from the
parameter `model`; inside the constructor body the name `model` is the parameter, which by
then has been moved from. -/
def Car.new (model : String) (fuelEfficiency : ℚ) (fuelType : Co2Source) (milesDriven : ℚ) :
    Except Exception Car :=
  let self : Car :=
    { model := model, fuel_type := fuelType, secondary_co2_sources := [],
      fuel_efficiency := fuelEfficiency, mileage := milesDriven }
  let model : String := movedFrom model
  if fuelEfficiency ≤ 0 then
    .error (.invalid_argument ("Fuel efficiency must be positive for car: " ++ model))
  else
    .ok self

/-- The member `Car::getCarbonFootprint`; it has no throwing path. -/
def Car.getCarbonFootprint (self : Car) : Except Exception ℚ :=
  .ok (self.fuel_type.calculateEmissions * self.mileage / self.fuel_efficiency)

/-- The member `Car::addSecondaryCo2Source`: outcome and state of the car after the call. -/
def Car.addSecondaryCo2Source (self : Car) (source : Co2Source) :
    Except Exception Car × Car :=
  if source.quantity ≤ 0 then
    (.error (.invalid_argument ("Quantity must be positive for source: " ++ source.source_name)),
      self)
  else
    let self1 : Car :=
      { self with secondary_co2_sources := self.secondary_co2_sources ++ [source] }
    (.ok self1, self1)

/-- The class `Bicycle` (members in declaration order). -/
structure Bicycle where
  frame_material : Co2Source
  co2_sources : List Co2Source
  hours_ridden : ℚ
  rider_weight : ℚ
  deriving DecidableEq, Repr

/-- The constructor `Bicycle::Bicycle`. -/
def Bicycle.new (frameMaterial : Co2Source) (hoursRidden riderWeight : ℚ) :
    Except Exception Bicycle :=
  let self : Bicycle :=
    { frame_material := frameMaterial, co2_sources := [],
      hours_ridden := hoursRidden, rider_weight := riderWeight }
  if riderWeight ≤ 0 then
    .error (.invalid_argument "Rider weight must be positive.")
  else
    .ok self

/-- The member `Bicycle::getCarbonFootprint`: the loop accumulates from the frame material's
emissions over the vector; it has no throwing path. -/
def Bicycle.getCarbonFootprint (self : Bicycle) : Except Exception ℚ :=
  let sum : ℚ :=
    self.co2_sources.foldl (fun sum source => sum + source.calculateEmissions)
      self.frame_material.calculateEmissions
  .ok sum

/-- The member `Bicycle::addSource`: outcome and state of the bicycle after the call. -/
def Bicycle.addSource (self : Bicycle) (source : Co2Source) :
    Except Exception Bicycle × Bicycle :=
  if source.quantity ≤ 0 then
    (.error (.invalid_argument ("Quantity must be positive for source: " ++ source.source_name)),
      self)
  else
    let self1 : Bicycle := { self with co2_sources := self.co2_sources ++ [source] }
    (.ok self1, self1)

/-- A chained call `x.add(s1).add(s2)...`: each call is made on the entity the previous one
returned; the first exception ends the chain and propagates. The second component is the
state of the object afterwards. -/
def chainCalls {σ : Type} (call : σ → Co2Source → Except Exception σ × σ) :
    σ → List Co2Source → Except Exception σ × σ
  | self, [] => (.ok self, self)
  | self, source :: rest =>
    match call self source with
    | (.ok _, self1) => chainCalls call self1 rest
    | (.error e, self1) => (.error e, self1)

/-- The state of an object after a sequence of separate calls, whether or not each of them
threw (every exception is caught by the caller, the object lives on). -/
def afterCalls {σ : Type} (call : σ → Co2Source → Except Exception σ × σ)
    (self : σ) (sources : List Co2Source) : σ :=
  sources.foldl (fun state source => (call state source).2) self

/-- The sum of `factor × quantity` over a source list, accumulated from `0` in list order
(the specification's wording of a building's aggregate). -/
def emissionsInOrder (sources : List Co2Source) : ℚ :=
  sources.foldl (fun acc s => acc + s.co2_emission_factor * s.quantity) 0

/-! ## Sources of the reference scenario built by `main` -/

/-- `Co2Source("Natural Gas", "therms", 0.005307, 12345)`. -/
def naturalGas : Co2Source := ⟨"Natural Gas", "therms", 0.005307, 12345⟩

/-- `Co2Source("Electricity", "kWh", 0.000707, 5000)`. -/
def electricity : Co2Source := ⟨"Electricity", "kWh", 0.000707, 5000⟩

/-- `Co2Source("Gasoline", "gallons", 0.00889, 8000)`. -/
def gasoline : Co2Source := ⟨"Gasoline", "gallons", 0.00889, 8000⟩

/-- `Co2Source("Motor Oil", "quarts", 0.22933, 7.93)`. -/
def motorOil : Co2Source := ⟨"Motor Oil", "quarts", 0.22933, 7.93⟩

/-- `Co2Source("Aluminum", "", 0.25, 1)`. -/
def aluminum : Co2Source := ⟨"Aluminum", "", 0.25, 1⟩

/-- `Co2Source("Tire Rubber", "kg", 0.0044, 3.8)`. -/
def tireRubber : Co2Source := ⟨"Tire Rubber", "kg", 0.0044, 3.8⟩

/-! ## The polymorphic interface, the reports and `main` -/

/-- The abstract class `CarbonFootprint` with its three derived classes: a value is an object
of one of them and the virtual members dispatch on it. -/
inductive CarbonFootprint where
  | building (b : Building)
  | car (c : Car)
  | bicycle (k : Bicycle)
  deriving DecidableEq, Repr

/-- The member `Building::getInfo`. The text that `operator<<` writes for a `double` is the
parameter `fmt`; an exception of `getCarbonFootprint` leaves the function and the stream is
lost. -/
def Building.getInfo (self : Building) (fmt : ℚ → String) : Except Exception String :=
  match self.getCarbonFootprint with
  | .error e => .error e
  | .ok total =>
    .ok ("Building Name: " ++ self.name ++ "\n"
      ++ "Total CO2 Emissions: " ++ fmt total ++ " mt CO2\n")

/-- The member `Car::getInfo`, with `fmt` the text written for a `double`. -/
def Car.getInfo (self : Car) (fmt : ℚ → String) : Except Exception String :=
  match self.getCarbonFootprint with
  | .error e => .error e
  | .ok total =>
    .ok ("Car Model: " ++ self.model ++ "\n"
      ++ "Fuel Efficiency: " ++ fmt self.fuel_efficiency ++ " mpg\n"
      ++ "Total CO2 Emissions: " ++ fmt total ++ " mt CO2\n")

/-- The member `Bicycle::getInfo`, with `fmt` the text written for a `double`. -/
def Bicycle.getInfo (self : Bicycle) (fmt : ℚ → String) : Except Exception String :=
  match self.getCarbonFootprint with
  | .error e => .error e
  | .ok total =>
    .ok ("Bicycle Type: " ++ self.frame_material.source_name ++ "\n"
      ++ "Rider Weight: " ++ fmt self.rider_weight ++ " kg\n"
      ++ "Riding Time: " ++ fmt self.hours_ridden ++ " hours\n"
      ++ "Total CO2 Emissions: " ++ fmt total ++ " mt CO2\n")

/-- The virtual member `getCarbonFootprint`, dispatched on the dynamic type. -/
def CarbonFootprint.getCarbonFootprint : CarbonFootprint → Except Exception ℚ
  | .building b => b.getCarbonFootprint
  | .car c => c.getCarbonFootprint
  | .bicycle k => k.getCarbonFootprint

/-- The virtual member `getInfo`, dispatched on the dynamic type. -/
def CarbonFootprint.getInfo (self : CarbonFootprint) (fmt : ℚ → String) :
    Except Exception String :=
  match self with
  | .building b => b.getInfo fmt
  | .car c => c.getInfo fmt
  | .bicycle k => k.getInfo fmt

/-- The exit status `EXIT_SUCCESS`. -/
def EXIT_SUCCESS : Nat := 0

/-- The exit status `EXIT_FAILURE`. -/
def EXIT_FAILURE : Nat := 1

/-- What a run of the program leaves behind: the text written to `cout`, the text written to
`cerr` and the value returned by `main`. -/
structure Run where
  cout : String
  cerr : String
  status : Nat
  deriving DecidableEq, Repr

/-- The first part of the `try` block of `main`: the three emitters are built and populated and
pushed to `footprints` in that order; any exception leaves the block. -/
def populate : Except Exception (List CarbonFootprint) :=
  match chainCalls Building.addSource (Building.new "Empire State") [naturalGas, electricity] with
  | (.error e, _) => .error e
  | (.ok _, empire_state_building) =>
    match Car.new "Lamborghini Huracan Performante" 12 gasoline 8000 with
    | .error e => .error e
    | .ok constructed_car =>
      match constructed_car.addSecondaryCo2Source motorOil with
      | (.error e, _) => .error e
      | (.ok _, lamborghini) =>
        match Bicycle.new aluminum 320 75 with
        | .error e => .error e
        | .ok constructed_bike =>
          match constructed_bike.addSource tireRubber with
          | (.error e, _) => .error e
          | (.ok _, aluminum_bike) =>
            .ok [.building empire_state_building, .car lamborghini, .bicycle aluminum_bike]

/-- The loop `for (footprint : footprints) cout << footprint->getInfo() << endl;` started with
`out` already written: what was written before an exception stays written. -/
def printAll (fmt : ℚ → String) : List CarbonFootprint → String → Except Exception Unit × String
  | [], out => (.ok (), out)
  | footprint :: rest, out =>
    match footprint.getInfo fmt with
    | .error e => (.error e, out)
    | .ok info => printAll fmt rest (out ++ info ++ "\n")

/-- The function `main`: the `try` block, then the handler that reports any exception on `cerr`
and returns `EXIT_FAILURE`. -/
def main (fmt : ℚ → String) : Run :=
  match populate with
  | .error e =>
    { cout := "", cerr := "An error occurred: " ++ e.what ++ "\n", status := EXIT_FAILURE }
  | .ok footprints =>
    match printAll fmt footprints "" with
    | (.error e, out) =>
      { cout := out, cerr := "An error occurred: " ++ e.what ++ "\n", status := EXIT_FAILURE }
    | (.ok _, out) => { cout := out, cerr := "", status := EXIT_SUCCESS }

/-- The decimal `shown`, written with `digits` decimals, is the value `x` rounded to that many
decimals (half a unit of the last decimal rounds up). -/
def roundsTo (digits : Nat) (x shown : ℚ) : Prop :=
  shown - 1 / (2 * 10 ^ digits) ≤ x ∧ x < shown + 1 / (2 * 10 ^ digits)

instance (digits : Nat) (x shown : ℚ) : Decidable (roundsTo digits x shown) :=
  inferInstanceAs (Decidable (_ ∧ _))

/-! ## The guards on a `double` that may be NaN -/

namespace WithNaN

/-- A `double` with its NaN: a number, kept exact, or NaN (infinities and rounding stay outside
the model). -/
inductive Double where
  | num (value : ℚ)
  | nan
  deriving DecidableEq, Repr

/-- The sum `a + b` of two `double`s: NaN as soon as an operand is NaN. -/
def Double.add : Double → Double → Double
  | .num a, .num b => .num (a + b)
  | _, _ => .nan

/-- The product `a * b` of two `double`s: NaN as soon as an operand is NaN. -/
def Double.mul : Double → Double → Double
  | .num a, .num b => .num (a * b)
  | _, _ => .nan

/-- The comparison `a <= b` of two `double`s: false as soon as an operand is NaN. -/
def Double.le : Double → Double → Bool
  | .num a, .num b => decide (a ≤ b)
  | _, _ => false

/-- The comparison `a < b` of two `double`s: false as soon as an operand is NaN. -/
def Double.lt : Double → Double → Bool
  | .num a, .num b => decide (a < b)
  | _, _ => false

/-- The struct `Co2Source`. -/
structure Co2Source where
  source_name : String
  units : String
  co2_emission_factor : Double
  quantity : Double := .num 0
  deriving DecidableEq, Repr

/-- The member `Co2Source::calculateEmissions`. -/
def Co2Source.calculateEmissions (self : Co2Source) : Double :=
  self.co2_emission_factor.mul self.quantity

/-- The class `Building` (members in declaration order). -/
structure Building where
  co2_sources : List Co2Source
  name : String
  deriving DecidableEq, Repr

/-- The constructor `Building::Building(string building_name)`. -/
def Building.new (building_name : String) : Building :=
  { co2_sources := [], name := building_name }

/-- The member `Building::getCarbonFootprint`: the loop accumulates from `0` over the vector,
then the test `total_emissions <= 0` decides on the throw. -/
def Building.getCarbonFootprint (self : Building) : Except Exception Double :=
  let total_emissions : Double :=
    self.co2_sources.foldl (fun total source => total.add source.calculateEmissions) (.num 0)
  if total_emissions.le (.num 0) then
    .error (.runtime_error ("Emission data is incomplete for building: " ++ self.name))
  else
    .ok total_emissions

/-- The member `Building::addSource`: the test `source.quantity <= 0` decides on the throw;
outcome and state of the building after the call. -/
def Building.addSource (self : Building) (source : Co2Source) :
    Except Exception Building × Building :=
  if source.quantity.le (.num 0) then
    (.error (.invalid_argument ("Quantity must be positive for source: " ++ source.source_name)),
      self)
  else
    let self1 : Building := { self with co2_sources := self.co2_sources ++ [source] }
    (.ok self1, self1)

/-- The class `Car` (members in declaration order). -/
structure Car where
  model : String
  fuel_type : Co2Source
  secondary_co2_sources : List Co2Source
  fuel_efficiency : Double
  mileage : Double
  deriving DecidableEq, Repr

/-- The constructor `Car::Car`: the test `fuelEfficiency <= 0` decides on the throw; the message
is built from the parameter `model`, which the member initialiser has moved from. -/
def Car.new (model : String) (fuelEfficiency : Double) (fuelType : Co2Source)
    (milesDriven : Double) : Except Exception Car :=
  let self : Car :=
    { model := model, fuel_type := fuelType, secondary_co2_sources := [],
      fuel_efficiency := fuelEfficiency, mileage := milesDriven }
  let model : String := movedFrom model
  if fuelEfficiency.le (.num 0) then
    .error (.invalid_argument ("Fuel efficiency must be positive for car: " ++ model))
  else
    .ok self

/-- The member `Car::addSecondaryCo2Source`: outcome and state of the car after the call. -/
def Car.addSecondaryCo2Source (self : Car) (source : Co2Source) :
    Except Exception Car × Car :=
  if source.quantity.le (.num 0) then
    (.error (.invalid_argument ("Quantity must be positive for source: " ++ source.source_name)),
      self)
  else
    let self1 : Car :=
      { self with secondary_co2_sources := self.secondary_co2_sources ++ [source] }
    (.ok self1, self1)

/-- The class `Bicycle` (members in declaration order). -/
structure Bicycle where
  frame_material : Co2Source
  co2_sources : List Co2Source
  hours_ridden : Double
  rider_weight : Double
  deriving DecidableEq, Repr

/-- The constructor `Bicycle::Bicycle`: the test `riderWeight <= 0` decides on the throw. -/
def Bicycle.new (frameMaterial : Co2Source) (hoursRidden riderWeight : Double) :
    Except Exception Bicycle :=
  let self : Bicycle :=
    { frame_material := frameMaterial, co2_sources := [],
      hours_ridden := hoursRidden, rider_weight := riderWeight }
  if riderWeight.le (.num 0) then
    .error (.invalid_argument "Rider weight must be positive.")
  else
    .ok self

/-- The member `Bicycle::addSource`: outcome and state of the bicycle after the call. -/
def Bicycle.addSource (self : Bicycle) (source : Co2Source) :
    Except Exception Bicycle × Bicycle :=
  if source.quantity.le (.num 0) then
    (.error (.invalid_argument ("Quantity must be positive for source: " ++ source.source_name)),
      self)
  else
    let self1 : Bicycle := { self with co2_sources := self.co2_sources ++ [source] }
    (.ok self1, self1)

/-- `Co2Source("Gasoline", "gallons", 0.00889, 8000)`. -/
def gasoline : Co2Source := ⟨"Gasoline", "gallons", .num 0.00889, .num 8000⟩

/-- `Co2Source("Aluminum", "", 0.25, 1)`. -/
def aluminum : Co2Source := ⟨"Aluminum", "", .num 0.25, .num 1⟩

/-- `Co2Source("Natural Gas", "therms", 0.005307, NAN)`: a source whose quantity is NaN. -/
def naturalGasNaN : Co2Source := ⟨"Natural Gas", "therms", .num 0.005307, .nan⟩

end WithNaN

/-! ## Shared lemmas -/

theorem mentions_append_right (a label : String) : mentions (a ++ label) label := by
  unfold mentions
  rw [String.data_append]
  exact (List.suffix_append _ _).isInfix

theorem emissionsInOrder_eq_loop (sources : List Co2Source) :
    sources.foldl (fun total source => total + source.calculateEmissions) 0
      = emissionsInOrder sources := rfl

/-! ## Building -/

/-- C1: a building whose sources' emissions, accumulated from 0 in insertion order, are
strictly positive has `getCarbonFootprint` succeed with exactly that sum. -/
theorem building_footprint_of_pos (b : Building)
    (h : 0 < emissionsInOrder b.co2_sources) :
    b.getCarbonFootprint = .ok (emissionsInOrder b.co2_sources) := by
  unfold Building.getCarbonFootprint
  simp only [emissionsInOrder_eq_loop]
  rw [if_neg (not_le.mpr h)]

theorem building_footprint_of_pos_witness :
    0 < emissionsInOrder [naturalGas, electricity] ∧
      (Building.mk [naturalGas, electricity] "Empire State").getCarbonFootprint
        = .ok (emissionsInOrder [naturalGas, electricity]) :=
  ⟨by norm_num [emissionsInOrder, naturalGas, electricity],
   building_footprint_of_pos ⟨[naturalGas, electricity], "Empire State"⟩
    (by norm_num [emissionsInOrder, naturalGas, electricity])⟩

/-- C2: `Building::getCarbonFootprint` fails exactly when the accumulated emissions are
non-positive, which includes every building without sources; the failure is a `runtime_error`
(never `invalid_argument`) whose message ends with, hence contains, the building's name. -/
theorem building_footprint_fails_iff (b : Building) :
    ((∃ e, b.getCarbonFootprint = .error e) ↔ emissionsInOrder b.co2_sources ≤ 0) ∧
    (∀ e, b.getCarbonFootprint = .error e →
      e = .runtime_error ("Emission data is incomplete for building: " ++ b.name) ∧
      (∀ w, e ≠ .invalid_argument w) ∧ mentions e.what b.name) ∧
    (b.co2_sources = [] → ∃ e, b.getCarbonFootprint = .error e) := by
  have key : ∀ e, b.getCarbonFootprint = .error e →
      emissionsInOrder b.co2_sources ≤ 0 ∧
      e = .runtime_error ("Emission data is incomplete for building: " ++ b.name) := by
    intro e he
    unfold Building.getCarbonFootprint at he
    simp only [emissionsInOrder_eq_loop] at he
    by_cases hle : emissionsInOrder b.co2_sources ≤ 0
    · rw [if_pos hle] at he
      exact ⟨hle, (Except.error.inj he).symm⟩
    · rw [if_neg hle] at he
      cases he
  have fails : emissionsInOrder b.co2_sources ≤ 0 → ∃ e, b.getCarbonFootprint = .error e := by
    intro hle
    refine ⟨.runtime_error ("Emission data is incomplete for building: " ++ b.name), ?_⟩
    unfold Building.getCarbonFootprint
    simp only [emissionsInOrder_eq_loop]
    rw [if_pos hle]
  refine ⟨⟨fun ⟨e, he⟩ => (key e he).1, fails⟩, ?_, ?_⟩
  · intro e he
    obtain ⟨_, rfl⟩ := key e he
    refine ⟨rfl, ?_, mentions_append_right _ _⟩
    intro w hw
    cases hw
  · intro hnil
    apply fails
    rw [hnil]
    exact le_refl (0 : ℚ)

theorem building_footprint_fails_iff_witness :
    (Building.new "Empire State").getCarbonFootprint
        = .error (.runtime_error "Emission data is incomplete for building: Empire State") ∧
      mentions "Emission data is incomplete for building: Empire State" "Empire State" := by
  obtain ⟨e, he⟩ := (building_footprint_fails_iff (Building.new "Empire State")).2.2 rfl
  obtain ⟨h1, _, h3⟩ := (building_footprint_fails_iff (Building.new "Empire State")).2.1 e he
  subst h1
  exact ⟨he, h3⟩

/-! ## The three add operations -/

/-- C3: `Building::addSource`, `Car::addSecondaryCo2Source` and `Bicycle::addSource`, called
with a source of quantity ≤ 0 on any emitter state, throw `invalid_argument` and leave the
emitter (source list and all other members) exactly as it was before the call. -/
theorem add_rejects_nonpositive_quantity (b : Building) (c : Car) (k : Bicycle)
    (source : Co2Source) (h : source.quantity ≤ 0) :
    b.addSource source
      = (.error (.invalid_argument
          ("Quantity must be positive for source: " ++ source.source_name)), b) ∧
    c.addSecondaryCo2Source source
      = (.error (.invalid_argument
          ("Quantity must be positive for source: " ++ source.source_name)), c) ∧
    k.addSource source
      = (.error (.invalid_argument
          ("Quantity must be positive for source: " ++ source.source_name)), k) := by
  refine ⟨?_, ?_, ?_⟩
  · unfold Building.addSource
    rw [if_pos h]
  · unfold Car.addSecondaryCo2Source
    rw [if_pos h]
  · unfold Bicycle.addSource
    rw [if_pos h]

theorem add_rejects_nonpositive_quantity_witness :
    (Co2Source.mk "Coal" "kg" 2 0).quantity ≤ 0 ∧
    (Building.mk [naturalGas] "Empire State").addSource (Co2Source.mk "Coal" "kg" 2 0)
      = (.error (.invalid_argument "Quantity must be positive for source: Coal"),
          Building.mk [naturalGas] "Empire State") ∧
    (Car.mk "Lamborghini Huracan Performante" gasoline [motorOil] 12 8000).addSecondaryCo2Source
        (Co2Source.mk "Coal" "kg" 2 0)
      = (.error (.invalid_argument "Quantity must be positive for source: Coal"),
          Car.mk "Lamborghini Huracan Performante" gasoline [motorOil] 12 8000) ∧
    (Bicycle.mk aluminum [tireRubber] 320 75).addSource (Co2Source.mk "Coal" "kg" 2 0)
      = (.error (.invalid_argument "Quantity must be positive for source: Coal"),
          Bicycle.mk aluminum [tireRubber] 320 75) :=
  ⟨le_refl (0 : ℚ),
   add_rejects_nonpositive_quantity (Building.mk [naturalGas] "Empire State")
    (Car.mk "Lamborghini Huracan Performante" gasoline [motorOil] 12 8000)
    (Bicycle.mk aluminum [tireRubber] 320 75) (Co2Source.mk "Coal" "kg" 2 0) (le_refl (0 : ℚ))⟩

theorem building_addSource_of_pos (b : Building) (source : Co2Source)
    (h : 0 < source.quantity) :
    b.addSource source
      = (.ok { co2_sources := b.co2_sources ++ [source], name := b.name },
          { co2_sources := b.co2_sources ++ [source], name := b.name }) := by
  unfold Building.addSource
  rw [if_neg (not_le.mpr h)]

theorem car_addSecondaryCo2Source_of_pos (c : Car) (source : Co2Source)
    (h : 0 < source.quantity) :
    c.addSecondaryCo2Source source
      = (.ok { c with secondary_co2_sources := c.secondary_co2_sources ++ [source] },
          { c with secondary_co2_sources := c.secondary_co2_sources ++ [source] }) := by
  unfold Car.addSecondaryCo2Source
  rw [if_neg (not_le.mpr h)]

theorem bicycle_addSource_of_pos (k : Bicycle) (source : Co2Source)
    (h : 0 < source.quantity) :
    k.addSource source
      = (.ok { k with co2_sources := k.co2_sources ++ [source] },
          { k with co2_sources := k.co2_sources ++ [source] }) := by
  unfold Bicycle.addSource
  rw [if_neg (not_le.mpr h)]

theorem building_chain_of_pos (sources : List Co2Source)
    (h : ∀ x ∈ sources, 0 < x.quantity) (b : Building) :
    chainCalls Building.addSource b sources
      = (.ok { co2_sources := b.co2_sources ++ sources, name := b.name },
          { co2_sources := b.co2_sources ++ sources, name := b.name }) := by
  induction sources generalizing b with
  | nil => simp [chainCalls]
  | cons x rest ih =>
    have hx : 0 < x.quantity := h x (List.mem_cons_self x rest)
    have hrest : ∀ y ∈ rest, 0 < y.quantity := fun y hy => h y (List.mem_cons_of_mem x hy)
    rw [chainCalls, building_addSource_of_pos b x hx]
    simp only
    rw [ih hrest]
    simp

theorem car_chain_of_pos (sources : List Co2Source)
    (h : ∀ x ∈ sources, 0 < x.quantity) (c : Car) :
    chainCalls Car.addSecondaryCo2Source c sources
      = (.ok { c with secondary_co2_sources := c.secondary_co2_sources ++ sources },
          { c with secondary_co2_sources := c.secondary_co2_sources ++ sources }) := by
  induction sources generalizing c with
  | nil => simp [chainCalls]
  | cons x rest ih =>
    have hx : 0 < x.quantity := h x (List.mem_cons_self x rest)
    have hrest : ∀ y ∈ rest, 0 < y.quantity := fun y hy => h y (List.mem_cons_of_mem x hy)
    rw [chainCalls, car_addSecondaryCo2Source_of_pos c x hx]
    simp only
    rw [ih hrest]
    simp

theorem bicycle_chain_of_pos (sources : List Co2Source)
    (h : ∀ x ∈ sources, 0 < x.quantity) (k : Bicycle) :
    chainCalls Bicycle.addSource k sources
      = (.ok { k with co2_sources := k.co2_sources ++ sources },
          { k with co2_sources := k.co2_sources ++ sources }) := by
  induction sources generalizing k with
  | nil => simp [chainCalls]
  | cons x rest ih =>
    have hx : 0 < x.quantity := h x (List.mem_cons_self x rest)
    have hrest : ∀ y ∈ rest, 0 < y.quantity := fun y hy => h y (List.mem_cons_of_mem x hy)
    rw [chainCalls, bicycle_addSource_of_pos k x hx]
    simp only
    rw [ih hrest]
    simp

theorem car_new_ok_iff (model : String) (e : ℚ) (p : Co2Source) (d : ℚ) (c : Car) :
    Car.new model e p d = .ok c ↔
      0 < e ∧ c = { model := model, fuel_type := p, secondary_co2_sources := [],
                    fuel_efficiency := e, mileage := d } := by
  unfold Car.new
  by_cases h : e ≤ 0
  · simp only [if_pos h]
    constructor
    · intro hc; cases hc
    · intro hc; exact absurd hc.1 (not_lt.mpr h)
  · simp only [if_neg h]
    constructor
    · intro hc; exact ⟨not_le.mp h, (Except.ok.inj hc).symm⟩
    · intro hc; rw [hc.2]

theorem bicycle_new_ok_iff (frame : Co2Source) (hours weight : ℚ) (k : Bicycle) :
    Bicycle.new frame hours weight = .ok k ↔
      0 < weight ∧ k = { frame_material := frame, co2_sources := [],
                         hours_ridden := hours, rider_weight := weight } := by
  unfold Bicycle.new
  by_cases h : weight ≤ 0
  · simp only [if_pos h]
    constructor
    · intro hk; cases hk
    · intro hk; exact absurd hk.1 (not_lt.mpr h)
  · simp only [if_neg h]
    constructor
    · intro hk; exact ⟨not_le.mp h, (Except.ok.inj hk).symm⟩
    · intro hk; rw [hk.2]

/-- C4: each add operation, called with a source of quantity > 0, succeeds and returns the same
emitter whose source list is the old list with the source appended at the end, all other
members unchanged; hence a chain of such calls on a fresh emitter leaves exactly the sources
of the chain, in call order. -/
theorem add_appends_and_chains (b : Building) (c : Car) (k : Bicycle)
    (source : Co2Source) (sources : List Co2Source)
    (h : 0 < source.quantity) (hs : ∀ x ∈ sources, 0 < x.quantity) :
    (b.addSource source
      = (.ok { co2_sources := b.co2_sources ++ [source], name := b.name },
          { co2_sources := b.co2_sources ++ [source], name := b.name })) ∧
    (c.addSecondaryCo2Source source
      = (.ok { model := c.model, fuel_type := c.fuel_type,
               secondary_co2_sources := c.secondary_co2_sources ++ [source],
               fuel_efficiency := c.fuel_efficiency, mileage := c.mileage },
          { model := c.model, fuel_type := c.fuel_type,
            secondary_co2_sources := c.secondary_co2_sources ++ [source],
            fuel_efficiency := c.fuel_efficiency, mileage := c.mileage })) ∧
    (k.addSource source
      = (.ok { frame_material := k.frame_material,
               co2_sources := k.co2_sources ++ [source],
               hours_ridden := k.hours_ridden, rider_weight := k.rider_weight },
          { frame_material := k.frame_material,
            co2_sources := k.co2_sources ++ [source],
            hours_ridden := k.hours_ridden, rider_weight := k.rider_weight })) ∧
    (∀ name : String,
      chainCalls Building.addSource (Building.new name) sources
        = (.ok { co2_sources := sources, name := name },
            { co2_sources := sources, name := name })) ∧
    (∀ (model : String) (e : ℚ) (p : Co2Source) (d : ℚ) (fresh : Car),
      Car.new model e p d = .ok fresh →
      chainCalls Car.addSecondaryCo2Source fresh sources
        = (.ok { model := model, fuel_type := p, secondary_co2_sources := sources,
                 fuel_efficiency := e, mileage := d },
            { model := model, fuel_type := p, secondary_co2_sources := sources,
              fuel_efficiency := e, mileage := d })) ∧
    (∀ (frame : Co2Source) (hours weight : ℚ) (fresh : Bicycle),
      Bicycle.new frame hours weight = .ok fresh →
      chainCalls Bicycle.addSource fresh sources
        = (.ok { frame_material := frame, co2_sources := sources,
                 hours_ridden := hours, rider_weight := weight },
            { frame_material := frame, co2_sources := sources,
              hours_ridden := hours, rider_weight := weight })) := by
  refine ⟨building_addSource_of_pos b source h, car_addSecondaryCo2Source_of_pos c source h,
    bicycle_addSource_of_pos k source h, ?_, ?_, ?_⟩
  · intro name
    rw [building_chain_of_pos sources hs]
    simp [Building.new]
  · intro model e p d fresh hfresh
    obtain ⟨_, rfl⟩ := (car_new_ok_iff model e p d fresh).mp hfresh
    rw [car_chain_of_pos sources hs]
    simp
  · intro frame hours weight fresh hfresh
    obtain ⟨_, rfl⟩ := (bicycle_new_ok_iff frame hours weight fresh).mp hfresh
    rw [bicycle_chain_of_pos sources hs]
    simp

theorem add_appends_and_chains_witness :
    (Building.new "Empire State").addSource naturalGas
      = (.ok (Building.mk [naturalGas] "Empire State"), Building.mk [naturalGas] "Empire State") ∧
    chainCalls Building.addSource (Building.new "Empire State") [naturalGas, electricity]
      = (.ok (Building.mk [naturalGas, electricity] "Empire State"),
          Building.mk [naturalGas, electricity] "Empire State") := by
  have hq : (0 : ℚ) < naturalGas.quantity := by norm_num [naturalGas]
  have hs : ∀ x ∈ [naturalGas, electricity], (0 : ℚ) < x.quantity := by
    intro x hx
    simp only [List.mem_cons, List.mem_singleton, List.not_mem_nil, or_false] at hx
    rcases hx with rfl | rfl
    · norm_num [naturalGas]
    · norm_num [electricity]
  have key := add_appends_and_chains (Building.new "Empire State")
    (Car.mk "Lamborghini Huracan Performante" gasoline [] 12 8000)
    (Bicycle.mk aluminum [] 320 75) naturalGas [naturalGas, electricity] hq hs
  exact ⟨key.1, key.2.2.2.1 "Empire State"⟩

/-! ## Car -/

theorem car_addSecondaryCo2Source_frame (c : Car) (source : Co2Source) :
    (c.addSecondaryCo2Source source).2.model = c.model ∧
    (c.addSecondaryCo2Source source).2.fuel_type = c.fuel_type ∧
    (c.addSecondaryCo2Source source).2.fuel_efficiency = c.fuel_efficiency ∧
    (c.addSecondaryCo2Source source).2.mileage = c.mileage := by
  unfold Car.addSecondaryCo2Source
  by_cases h : source.quantity ≤ 0
  · simp only [if_pos h, and_self]
  · simp only [if_neg h, and_self]

theorem car_afterCalls_frame (sources : List Co2Source) (c : Car) :
    (afterCalls Car.addSecondaryCo2Source c sources).model = c.model ∧
    (afterCalls Car.addSecondaryCo2Source c sources).fuel_type = c.fuel_type ∧
    (afterCalls Car.addSecondaryCo2Source c sources).fuel_efficiency = c.fuel_efficiency ∧
    (afterCalls Car.addSecondaryCo2Source c sources).mileage = c.mileage := by
  induction sources generalizing c with
  | nil => simp [afterCalls]
  | cons x rest ih =>
    have hx := car_addSecondaryCo2Source_frame c x
    have hrest := ih (c.addSecondaryCo2Source x).2
    simp only [afterCalls, List.foldl_cons] at hrest ⊢
    exact ⟨hrest.1.trans hx.1, hrest.2.1.trans hx.2.1, hrest.2.2.1.trans hx.2.2.1,
      hrest.2.2.2.trans hx.2.2.2⟩

/-- C5: on a successfully constructed car, after any sequence of `addSecondaryCo2Source` calls
(accepted or rejected), `getCarbonFootprint` succeeds with
`primary.factor × primary.quantity × distance / fuelEfficiency`, the value it had before any
secondary source was attached. -/
theorem car_footprint_ignores_secondary (model : String) (fuelEfficiency : ℚ)
    (primary : Co2Source) (distance : ℚ) (c : Car)
    (h : Car.new model fuelEfficiency primary distance = .ok c) (sources : List Co2Source) :
    (afterCalls Car.addSecondaryCo2Source c sources).getCarbonFootprint
      = .ok (primary.co2_emission_factor * primary.quantity * distance / fuelEfficiency) ∧
    (afterCalls Car.addSecondaryCo2Source c sources).getCarbonFootprint
      = c.getCarbonFootprint := by
  obtain ⟨_, hc⟩ := (car_new_ok_iff model fuelEfficiency primary distance c).mp h
  obtain ⟨_, h2, h3, h4⟩ := car_afterCalls_frame sources c
  have hval : c.getCarbonFootprint
      = .ok (primary.co2_emission_factor * primary.quantity * distance / fuelEfficiency) := by
    rw [hc]
    rfl
  have hsame : (afterCalls Car.addSecondaryCo2Source c sources).getCarbonFootprint
      = c.getCarbonFootprint := by
    unfold Car.getCarbonFootprint
    rw [h2, h3, h4]
  exact ⟨hsame.trans hval, hsame⟩

theorem car_footprint_ignores_secondary_witness :
    Car.new "Lamborghini Huracan Performante" 12 gasoline 8000
      = .ok (Car.mk "Lamborghini Huracan Performante" gasoline [] 12 8000) ∧
    (afterCalls Car.addSecondaryCo2Source
        (Car.mk "Lamborghini Huracan Performante" gasoline [] 12 8000)
        [motorOil]).getCarbonFootprint
      = .ok ((0.00889 : ℚ) * 8000 * 8000 / 12) ∧
    |(0.00889 : ℚ) * 8000 * 8000 / 12 - 47413.33| < 0.005 := by
  have hnew : Car.new "Lamborghini Huracan Performante" 12 gasoline 8000
      = .ok (Car.mk "Lamborghini Huracan Performante" gasoline [] 12 8000) := by
    simp [Car.new]
  refine ⟨hnew, ?_, ?_⟩
  · exact (car_footprint_ignores_secondary "Lamborghini Huracan Performante" 12 gasoline 8000
      (Car.mk "Lamborghini Huracan Performante" gasoline [] 12 8000) hnew [motorOil]).1
  · rw [abs_lt]
    constructor <;> norm_num

/-- C7: `Car::Car` throws `invalid_argument` for every fuel efficiency ≤ 0, whatever the model,
primary source and distance, so that no car results; for every fuel efficiency > 0 it yields
the car holding the given model, fuel efficiency, primary source and distance and an empty
secondary list. -/
theorem car_new_validates_fuel_efficiency (model : String) (fuelEfficiency : ℚ)
    (primary : Co2Source) (distance : ℚ) :
    (fuelEfficiency ≤ 0 →
      (∃ w, Car.new model fuelEfficiency primary distance = .error (.invalid_argument w)) ∧
      ∀ c, Car.new model fuelEfficiency primary distance ≠ .ok c) ∧
    (0 < fuelEfficiency →
      Car.new model fuelEfficiency primary distance
        = .ok { model := model, fuel_type := primary, secondary_co2_sources := [],
                fuel_efficiency := fuelEfficiency, mileage := distance }) := by
  constructor
  · intro h
    constructor
    · refine ⟨"Fuel efficiency must be positive for car: " ++ movedFrom model, ?_⟩
      unfold Car.new
      simp only [if_pos h]
    · intro c hc
      exact absurd ((car_new_ok_iff model fuelEfficiency primary distance c).mp hc).1
        (not_lt.mpr h)
  · intro h
    exact (car_new_ok_iff model fuelEfficiency primary distance _).mpr ⟨h, rfl⟩

theorem car_new_validates_fuel_efficiency_witness :
    (∃ w, Car.new "Lamborghini Huracan Performante" 0 gasoline 8000
        = .error (.invalid_argument w)) ∧
    Car.new "Lamborghini Huracan Performante" 12 gasoline 8000
      = .ok (Car.mk "Lamborghini Huracan Performante" gasoline [] 12 8000) :=
  ⟨((car_new_validates_fuel_efficiency "Lamborghini Huracan Performante" 0 gasoline 8000).1
      (le_refl (0 : ℚ))).1,
   (car_new_validates_fuel_efficiency "Lamborghini Huracan Performante" 12 gasoline 8000).2
      (by norm_num)⟩

/-- C8 (evaluation of the code): constructing the car "Lamborghini Huracan Performante" with fuel
efficiency 0 throws `invalid_argument` with the message
"Fuel efficiency must be positive for car: ", which does not contain the model. -/
theorem car_new_message_lacks_model :
    Car.new "Lamborghini Huracan Performante" 0 gasoline 8000
      = .error (.invalid_argument "Fuel efficiency must be positive for car: ") ∧
    ¬ mentions "Fuel efficiency must be positive for car: "
        "Lamborghini Huracan Performante" := by
  constructor
  · simp [Car.new, movedFrom]
  · decide

/-! ## Bicycle -/

theorem foldl_emissions_from (sources : List Co2Source) (start : ℚ) :
    sources.foldl (fun sum source => sum + source.calculateEmissions) start
      = start + emissionsInOrder sources := by
  induction sources using List.reverseRecOn with
  | nil => simp [emissionsInOrder]
  | append_singleton rest x ih =>
    simp only [emissionsInOrder, List.foldl_append, List.foldl_cons, List.foldl_nil] at ih ⊢
    rw [ih]
    simp only [Co2Source.calculateEmissions]
    ring

/-- C6: `Bicycle::getCarbonFootprint` succeeds on every bicycle, whatever the sign of the
result, with the frame material's emissions plus the secondary sources' emissions summed in
insertion order. -/
theorem bicycle_footprint_total (k : Bicycle) :
    k.getCarbonFootprint
      = .ok (k.frame_material.co2_emission_factor * k.frame_material.quantity
              + emissionsInOrder k.co2_sources) := by
  unfold Bicycle.getCarbonFootprint
  simp only [foldl_emissions_from]
  rfl

theorem bicycle_footprint_total_witness :
    (Bicycle.mk aluminum [tireRubber] 320 75).getCarbonFootprint = .ok 0.26672 ∧
    Bicycle.new (Co2Source.mk "Aluminum" "" 0.25 0) 320 75
      = .ok (Bicycle.mk (Co2Source.mk "Aluminum" "" 0.25 0) [] 320 75) ∧
    (Bicycle.mk (Co2Source.mk "Aluminum" "" 0.25 0) [] 320 75).getCarbonFootprint = .ok 0 := by
  refine ⟨?_, ?_, ?_⟩
  · rw [bicycle_footprint_total]
    norm_num [emissionsInOrder, aluminum, tireRubber]
  · simp [Bicycle.new]
  · rw [bicycle_footprint_total]
    norm_num [emissionsInOrder]

/-- C10: `Bicycle::Bicycle` throws `invalid_argument` for every rider weight ≤ 0, whatever the
frame source and the hours ridden; for every rider weight > 0 it yields the bicycle holding
the given frame source, hours ridden and rider weight and an empty secondary list, without
any check of the frame source's quantity or of the hours. -/
theorem bicycle_new_validates_rider_weight (frame : Co2Source) (hoursRidden riderWeight : ℚ) :
    (riderWeight ≤ 0 →
      Bicycle.new frame hoursRidden riderWeight
        = .error (.invalid_argument "Rider weight must be positive.")) ∧
    (0 < riderWeight →
      Bicycle.new frame hoursRidden riderWeight
        = .ok { frame_material := frame, co2_sources := [],
                hours_ridden := hoursRidden, rider_weight := riderWeight }) := by
  constructor
  · intro h
    unfold Bicycle.new
    simp only [if_pos h]
  · intro h
    exact (bicycle_new_ok_iff frame hoursRidden riderWeight _).mpr ⟨h, rfl⟩

theorem bicycle_new_validates_rider_weight_witness :
    Bicycle.new aluminum 320 0 = .error (.invalid_argument "Rider weight must be positive.") ∧
    Bicycle.new aluminum 320 75 = .ok (Bicycle.mk aluminum [] 320 75) ∧
    Bicycle.new (Co2Source.mk "Aluminum" "" 0.25 (-1)) (-320) 75
      = .ok (Bicycle.mk (Co2Source.mk "Aluminum" "" 0.25 (-1)) [] (-320) 75) :=
  ⟨(bicycle_new_validates_rider_weight aluminum 320 0).1 (le_refl (0 : ℚ)),
   (bicycle_new_validates_rider_weight aluminum 320 75).2 (by norm_num),
   (bicycle_new_validates_rider_weight (Co2Source.mk "Aluminum" "" 0.25 (-1)) (-320) 75).2
    (by norm_num)⟩

/-! ## Messages of the `invalid_argument` failures -/

/-- C9 (counterexample): constructing a bicycle with the frame source "Aluminum" and rider
weight 0 throws `invalid_argument` with the message "Rider weight must be positive.", which
does not contain the name of the frame source, the only label the caller supplied. -/
theorem bicycle_new_message_has_no_label :
    Bicycle.new aluminum 320 0 = .error (.invalid_argument "Rider weight must be positive.") ∧
    aluminum.source_name = "Aluminum" ∧
    ¬ mentions "Rider weight must be positive." "Aluminum" := by
  refine ⟨?_, rfl, ?_⟩
  · simp [Bicycle.new]
  · decide

/-- C9 (amended): the `invalid_argument` failure of each of the three add operations, raised for
a source of quantity ≤ 0, carries a message that contains the name of that source; the
`invalid_argument` failure of the bicycle constructor, raised for a rider weight ≤ 0, carries
the fixed message "Rider weight must be positive." whatever the arguments. -/
theorem add_failure_message_names_source (b : Building) (c : Car) (k : Bicycle)
    (source frame : Co2Source) (hoursRidden riderWeight : ℚ)
    (h : source.quantity ≤ 0) (hw : riderWeight ≤ 0) :
    (∃ w, (b.addSource source).1 = .error (.invalid_argument w) ∧
      mentions w source.source_name) ∧
    (∃ w, (c.addSecondaryCo2Source source).1 = .error (.invalid_argument w) ∧
      mentions w source.source_name) ∧
    (∃ w, (k.addSource source).1 = .error (.invalid_argument w) ∧
      mentions w source.source_name) ∧
    Bicycle.new frame hoursRidden riderWeight
      = .error (.invalid_argument "Rider weight must be positive.") := by
  have hm : mentions ("Quantity must be positive for source: " ++ source.source_name)
      source.source_name := mentions_append_right _ _
  refine ⟨⟨"Quantity must be positive for source: " ++ source.source_name, ?_, hm⟩,
    ⟨"Quantity must be positive for source: " ++ source.source_name, ?_, hm⟩,
    ⟨"Quantity must be positive for source: " ++ source.source_name, ?_, hm⟩, ?_⟩
  · unfold Building.addSource
    rw [if_pos h]
  · unfold Car.addSecondaryCo2Source
    rw [if_pos h]
  · unfold Bicycle.addSource
    rw [if_pos h]
  · unfold Bicycle.new
    simp only [if_pos hw]

theorem add_failure_message_names_source_witness :
    (∃ w, ((Building.new "Empire State").addSource (Co2Source.mk "Coal" "kg" 2 0)).1
        = .error (.invalid_argument w) ∧ mentions w "Coal") ∧
    Bicycle.new aluminum 320 (-75)
      = .error (.invalid_argument "Rider weight must be positive.") := by
  have key := add_failure_message_names_source (Building.new "Empire State")
    (Car.mk "Lamborghini Huracan Performante" gasoline [] 12 8000)
    (Bicycle.mk aluminum [] 320 75) (Co2Source.mk "Coal" "kg" 2 0) aluminum 320 (-75)
    (le_refl (0 : ℚ)) (by norm_num)
  exact ⟨key.1, key.2.2.2⟩

/-! ## Emission sources -/

/-- C18: a primary fuel source of quantity ≤ 0 is accepted by the car constructor and a frame
source of quantity ≤ 0 by the bicycle constructor, although `addSecondaryCo2Source` and
`addSource` reject the same source with `invalid_argument`; with a positive factor (and a
non-negative distance for the car) `getCarbonFootprint` then succeeds with a value ≤ 0. -/
theorem constructor_source_quantity_unchecked (model : String) (fuelEfficiency : ℚ)
    (primary : Co2Source) (distance : ℚ) (frame : Co2Source) (hoursRidden riderWeight : ℚ)
    (he : 0 < fuelEfficiency) (hq : primary.quantity ≤ 0)
    (hf : 0 < primary.co2_emission_factor) (hd : 0 ≤ distance)
    (hw : 0 < riderWeight) (hfq : frame.quantity ≤ 0) (hff : 0 < frame.co2_emission_factor) :
    (∃ c, Car.new model fuelEfficiency primary distance = .ok c ∧ c.fuel_type = primary ∧
      (∃ w, (c.addSecondaryCo2Source primary).1 = .error (.invalid_argument w)) ∧
      ∃ v, c.getCarbonFootprint = .ok v ∧ v ≤ 0) ∧
    (∃ k, Bicycle.new frame hoursRidden riderWeight = .ok k ∧ k.frame_material = frame ∧
      (∃ w, (k.addSource frame).1 = .error (.invalid_argument w)) ∧
      ∃ v, k.getCarbonFootprint = .ok v ∧ v ≤ 0) := by
  constructor
  · refine ⟨_, (car_new_ok_iff model fuelEfficiency primary distance _).mpr ⟨he, rfl⟩, rfl,
      ⟨"Quantity must be positive for source: " ++ primary.source_name, ?_⟩, _, rfl, ?_⟩
    · unfold Car.addSecondaryCo2Source
      rw [if_pos hq]
    · simp only [Co2Source.calculateEmissions]
      have h1 : primary.co2_emission_factor * primary.quantity ≤ 0 :=
        mul_nonpos_of_nonneg_of_nonpos (le_of_lt hf) hq
      have h2 : primary.co2_emission_factor * primary.quantity * distance ≤ 0 :=
        mul_nonpos_of_nonpos_of_nonneg h1 hd
      exact div_nonpos_of_nonpos_of_nonneg h2 (le_of_lt he)
  · refine ⟨_, (bicycle_new_ok_iff frame hoursRidden riderWeight _).mpr ⟨hw, rfl⟩, rfl,
      ⟨"Quantity must be positive for source: " ++ frame.source_name, ?_⟩, _, rfl, ?_⟩
    · unfold Bicycle.addSource
      rw [if_pos hfq]
    · simp only [List.foldl_nil, Co2Source.calculateEmissions]
      exact mul_nonpos_of_nonneg_of_nonpos (le_of_lt hff) hfq

theorem constructor_source_quantity_unchecked_witness :
    (∃ c, Car.new "Lamborghini Huracan Performante" 12
        { source_name := "Gasoline", units := "gallons", co2_emission_factor := 0.00889 } 8000
          = .ok c ∧
      c.fuel_type
        = { source_name := "Gasoline", units := "gallons", co2_emission_factor := 0.00889 } ∧
      (∃ w, (c.addSecondaryCo2Source
        { source_name := "Gasoline", units := "gallons", co2_emission_factor := 0.00889 }).1
          = .error (.invalid_argument w)) ∧
      ∃ v, c.getCarbonFootprint = .ok v ∧ v ≤ 0) ∧
    (∃ k, Bicycle.new (Co2Source.mk "Aluminum" "" 0.25 (-1)) 320 75 = .ok k ∧
      k.frame_material = Co2Source.mk "Aluminum" "" 0.25 (-1) ∧
      (∃ w, (k.addSource (Co2Source.mk "Aluminum" "" 0.25 (-1))).1
          = .error (.invalid_argument w)) ∧
      ∃ v, k.getCarbonFootprint = .ok v ∧ v ≤ 0) :=
  constructor_source_quantity_unchecked "Lamborghini Huracan Performante" 12
    { source_name := "Gasoline", units := "gallons", co2_emission_factor := 0.00889 } 8000
    (Co2Source.mk "Aluminum" "" 0.25 (-1)) 320 75
    (by norm_num) (le_refl (0 : ℚ)) (by norm_num) (by norm_num) (by norm_num) (by norm_num)
    (by norm_num)

/-! ## Reports -/

theorem building_getInfo_of_ok (fmt : ℚ → String) (b : Building) (v : ℚ)
    (h : b.getCarbonFootprint = .ok v) :
    b.getInfo fmt
      = .ok ("Building Name: " ++ b.name ++ "\n"
          ++ "Total CO2 Emissions: " ++ fmt v ++ " mt CO2\n") := by
  unfold Building.getInfo
  rw [h]

theorem car_getInfo_of_ok (fmt : ℚ → String) (c : Car) (v : ℚ)
    (h : c.getCarbonFootprint = .ok v) :
    c.getInfo fmt
      = .ok ("Car Model: " ++ c.model ++ "\n"
          ++ "Fuel Efficiency: " ++ fmt c.fuel_efficiency ++ " mpg\n"
          ++ "Total CO2 Emissions: " ++ fmt v ++ " mt CO2\n") := by
  unfold Car.getInfo
  rw [h]

theorem bicycle_getInfo_of_ok (fmt : ℚ → String) (k : Bicycle) (v : ℚ)
    (h : k.getCarbonFootprint = .ok v) :
    k.getInfo fmt
      = .ok ("Bicycle Type: " ++ k.frame_material.source_name ++ "\n"
          ++ "Rider Weight: " ++ fmt k.rider_weight ++ " kg\n"
          ++ "Riding Time: " ++ fmt k.hours_ridden ++ " hours\n"
          ++ "Total CO2 Emissions: " ++ fmt v ++ " mt CO2\n") := by
  unfold Bicycle.getInfo
  rw [h]

theorem building_getInfo_error_iff (fmt : ℚ → String) (b : Building) (e : Exception) :
    b.getInfo fmt = .error e ↔ b.getCarbonFootprint = .error e := by
  unfold Building.getInfo
  cases h : b.getCarbonFootprint with
  | error e1 => simp
  | ok v => simp

theorem car_getInfo_error_iff (fmt : ℚ → String) (c : Car) (e : Exception) :
    c.getInfo fmt = .error e ↔ c.getCarbonFootprint = .error e := by
  unfold Car.getInfo
  cases h : c.getCarbonFootprint with
  | error e1 => simp
  | ok v => simp

theorem bicycle_getInfo_error_iff (fmt : ℚ → String) (k : Bicycle) (e : Exception) :
    k.getInfo fmt = .error e ↔ k.getCarbonFootprint = .error e := by
  unfold Bicycle.getInfo
  cases h : k.getCarbonFootprint with
  | error e1 => simp
  | ok v => simp

/-- C15: for every emitter `getInfo` fails exactly when its `getCarbonFootprint` fails, with the
same exception, so that the reports of a car and of a bicycle never fail; when the footprint
is `v`, the report of a building is its name line and the total line, that of a car its model
line, its fuel-efficiency line in mpg and the total line, and that of a bicycle the line of
the frame source's name, the rider-weight line in kg, the riding-time line in hours and the
total line, where `fmt` writes the numbers. -/
theorem getInfo_follows_getCarbonFootprint (fmt : ℚ → String) :
    (∀ (f : CarbonFootprint) (e : Exception),
      f.getInfo fmt = .error e ↔ f.getCarbonFootprint = .error e) ∧
    (∀ (c : Car) (e : Exception), c.getInfo fmt ≠ .error e) ∧
    (∀ (k : Bicycle) (e : Exception), k.getInfo fmt ≠ .error e) ∧
    (∀ (b : Building) (v : ℚ), b.getCarbonFootprint = .ok v →
      b.getInfo fmt
        = .ok ("Building Name: " ++ b.name ++ "\nTotal CO2 Emissions: " ++ fmt v
            ++ " mt CO2\n")) ∧
    (∀ c : Car, ∃ v, c.getCarbonFootprint = .ok v ∧
      c.getInfo fmt
        = .ok ("Car Model: " ++ c.model ++ "\nFuel Efficiency: " ++ fmt c.fuel_efficiency
            ++ " mpg\nTotal CO2 Emissions: " ++ fmt v ++ " mt CO2\n")) ∧
    (∀ k : Bicycle, ∃ v, k.getCarbonFootprint = .ok v ∧
      k.getInfo fmt
        = .ok ("Bicycle Type: " ++ k.frame_material.source_name
            ++ "\nRider Weight: " ++ fmt k.rider_weight
            ++ " kg\nRiding Time: " ++ fmt k.hours_ridden
            ++ " hours\nTotal CO2 Emissions: " ++ fmt v ++ " mt CO2\n")) := by
  refine ⟨?_, ?_, ?_, ?_, ?_, ?_⟩
  · intro f e
    cases f with
    | building b => exact building_getInfo_error_iff fmt b e
    | car c => exact car_getInfo_error_iff fmt c e
    | bicycle k => exact bicycle_getInfo_error_iff fmt k e
  · intro c e h
    have h1 := (car_getInfo_error_iff fmt c e).mp h
    cases h1
  · intro k e h
    have h1 := (bicycle_getInfo_error_iff fmt k e).mp h
    cases h1
  · intro b v h
    rw [building_getInfo_of_ok fmt b v h]
    simp only [String.append_assoc]
    rfl
  · intro c
    refine ⟨_, rfl, ?_⟩
    rw [car_getInfo_of_ok fmt c _ rfl]
    simp only [String.append_assoc]
    rfl
  · intro k
    refine ⟨_, rfl, ?_⟩
    rw [bicycle_getInfo_of_ok fmt k _ rfl]
    simp only [String.append_assoc]
    rfl

/-! ## The reference scenario -/

theorem populate_eq :
    populate
      = .ok [.building (Building.mk [naturalGas, electricity] "Empire State"),
             .car (Car.mk "Lamborghini Huracan Performante" gasoline [motorOil] 12 8000),
             .bicycle (Bicycle.mk aluminum [tireRubber] 320 75)] := by
  have hb : chainCalls Building.addSource (Building.new "Empire State")
      [naturalGas, electricity]
        = (.ok (Building.mk [naturalGas, electricity] "Empire State"),
            Building.mk [naturalGas, electricity] "Empire State") := by
    rw [building_chain_of_pos]
    · rfl
    · intro x hx
      simp only [List.mem_cons, List.mem_singleton, List.not_mem_nil, or_false] at hx
      rcases hx with rfl | rfl
      · norm_num [naturalGas]
      · norm_num [electricity]
  have hc : Car.new "Lamborghini Huracan Performante" 12 gasoline 8000
      = .ok (Car.mk "Lamborghini Huracan Performante" gasoline [] 12 8000) :=
    (car_new_ok_iff _ _ _ _ _).mpr ⟨by norm_num, rfl⟩
  have hc1 : (Car.mk "Lamborghini Huracan Performante" gasoline [] 12 8000).addSecondaryCo2Source
      motorOil
        = (.ok (Car.mk "Lamborghini Huracan Performante" gasoline [motorOil] 12 8000),
            Car.mk "Lamborghini Huracan Performante" gasoline [motorOil] 12 8000) := by
    rw [car_addSecondaryCo2Source_of_pos _ _ (by norm_num [motorOil])]
    rfl
  have hk : Bicycle.new aluminum 320 75 = .ok (Bicycle.mk aluminum [] 320 75) :=
    (bicycle_new_ok_iff _ _ _ _).mpr ⟨by norm_num, rfl⟩
  have hk1 : (Bicycle.mk aluminum [] 320 75).addSource tireRubber
      = (.ok (Bicycle.mk aluminum [tireRubber] 320 75),
          Bicycle.mk aluminum [tireRubber] 320 75) := by
    rw [bicycle_addSource_of_pos _ _ (by norm_num [tireRubber])]
    rfl
  unfold populate
  rw [hb]
  simp only
  rw [hc]
  simp only
  rw [hc1]
  simp only
  rw [hk]
  simp only
  rw [hk1]

theorem empire_state_footprint :
    (Building.mk [naturalGas, electricity] "Empire State").getCarbonFootprint
      = .ok 69.049915 := by
  have hsum : emissionsInOrder [naturalGas, electricity] = 69.049915 := by
    norm_num [emissionsInOrder, naturalGas, electricity]
  unfold Building.getCarbonFootprint
  simp only [emissionsInOrder_eq_loop, hsum]
  norm_num

theorem lamborghini_footprint :
    (Car.mk "Lamborghini Huracan Performante" gasoline [motorOil] 12 8000).getCarbonFootprint
      = .ok (142240 / 3) := by
  unfold Car.getCarbonFootprint
  norm_num [Co2Source.calculateEmissions, gasoline]

theorem aluminum_bike_footprint :
    (Bicycle.mk aluminum [tireRubber] 320 75).getCarbonFootprint = .ok 0.26672 := by
  unfold Bicycle.getCarbonFootprint
  norm_num [Co2Source.calculateEmissions, aluminum, tireRubber]

/-- C13: the run of `main` raises no failure: the emitters are built and populated in the order
building, car, bicycle, the three footprints are computed, `cout` receives exactly the three
reports in that order, each followed by an empty line, `cerr` receives nothing and the value
returned is `EXIT_SUCCESS`, which is 0. -/
theorem main_reference_run (fmt : ℚ → String) :
    populate
      = .ok [.building (Building.mk [naturalGas, electricity] "Empire State"),
             .car (Car.mk "Lamborghini Huracan Performante" gasoline [motorOil] 12 8000),
             .bicycle (Bicycle.mk aluminum [tireRubber] 320 75)] ∧
    main fmt
      = { cout :=
            "Building Name: Empire State\nTotal CO2 Emissions: " ++ fmt 69.049915
              ++ " mt CO2\n\n"
              ++ "Car Model: Lamborghini Huracan Performante\nFuel Efficiency: " ++ fmt 12
              ++ " mpg\nTotal CO2 Emissions: " ++ fmt (142240 / 3) ++ " mt CO2\n\n"
              ++ "Bicycle Type: Aluminum\nRider Weight: " ++ fmt 75
              ++ " kg\nRiding Time: " ++ fmt 320
              ++ " hours\nTotal CO2 Emissions: " ++ fmt 0.26672 ++ " mt CO2\n\n",
          cerr := "",
          status := EXIT_SUCCESS } ∧
    (main fmt).status = 0 := by
  have hb := building_getInfo_of_ok fmt _ _ empire_state_footprint
  have hc := car_getInfo_of_ok fmt _ _ lamborghini_footprint
  have hk := bicycle_getInfo_of_ok fmt _ _ aluminum_bike_footprint
  have hmain : main fmt
      = { cout :=
            "Building Name: Empire State\nTotal CO2 Emissions: " ++ fmt 69.049915
              ++ " mt CO2\n\n"
              ++ "Car Model: Lamborghini Huracan Performante\nFuel Efficiency: " ++ fmt 12
              ++ " mpg\nTotal CO2 Emissions: " ++ fmt (142240 / 3) ++ " mt CO2\n\n"
              ++ "Bicycle Type: Aluminum\nRider Weight: " ++ fmt 75
              ++ " kg\nRiding Time: " ++ fmt 320
              ++ " hours\nTotal CO2 Emissions: " ++ fmt 0.26672 ++ " mt CO2\n\n",
          cerr := "",
          status := EXIT_SUCCESS } := by
    unfold main
    rw [populate_eq]
    simp only [printAll, CarbonFootprint.getInfo, hb, hc, hk]
    simp only [String.append_assoc]
    rfl
  refine ⟨populate_eq, hmain, ?_⟩
  rw [hmain]
  rfl

theorem getInfo_follows_getCarbonFootprint_witness :
    (Building.new "Empire State").getInfo (fun _ => "?")
      = .error (.runtime_error "Emission data is incomplete for building: Empire State") ∧
    (Building.mk [naturalGas, electricity] "Empire State").getInfo (fun _ => "?")
      = .ok "Building Name: Empire State\nTotal CO2 Emissions: ? mt CO2\n" := by
  constructor
  · apply ((getInfo_follows_getCarbonFootprint (fun _ => "?")).1
      (.building (Building.new "Empire State")) _).mpr
    simp [CarbonFootprint.getCarbonFootprint, Building.getCarbonFootprint, Building.new]
  · exact (getInfo_follows_getCarbonFootprint (fun _ => "?")).2.2.2.1 _ _ empire_state_footprint

/-- C14 (counterexample): the building "Empire State" populated as in `main` has the footprint
69.049915, of which the first source contributes 65.514915; rounded to two decimals that
contribution is not 65.52 and rounded to three decimals the total is not 69.055, from which
it differs by 0.005085. -/
theorem empire_state_footprint_is_not_69_055 :
    (chainCalls Building.addSource (Building.new "Empire State")
        [naturalGas, electricity]).2.getCarbonFootprint = .ok 69.049915 ∧
    naturalGas.calculateEmissions = 65.514915 ∧
    ¬ roundsTo 2 naturalGas.calculateEmissions 65.52 ∧
    ¬ roundsTo 3 69.049915 69.055 ∧
    (69.055 : ℚ) - 69.049915 = 0.005085 := by
  have hchain : (chainCalls Building.addSource (Building.new "Empire State")
      [naturalGas, electricity]).2 = Building.mk [naturalGas, electricity] "Empire State" := by
    rw [building_chain_of_pos]
    · rfl
    · intro x hx
      simp only [List.mem_cons, List.mem_singleton, List.not_mem_nil, or_false] at hx
      rcases hx with rfl | rfl
      · norm_num [naturalGas]
      · norm_num [electricity]
  refine ⟨?_, ?_, ?_, ?_, ?_⟩
  · rw [hchain]
    exact empire_state_footprint
  · norm_num [Co2Source.calculateEmissions, naturalGas]
  · norm_num [roundsTo, Co2Source.calculateEmissions, naturalGas]
  · norm_num [roundsTo]
  · norm_num

/-- C14 (amended): the building "Empire State" with the sources (0.005307, 12345) and
(0.000707, 5000) attached in that order has `getCarbonFootprint` succeed with
65.514915 + 3.535 = 69.049915; the first source contributes 65.51 when rounded to two
decimals and the total is 69.050 when rounded to three decimals. -/
theorem empire_state_footprint_rounded :
    (chainCalls Building.addSource (Building.new "Empire State")
        [naturalGas, electricity]).2.getCarbonFootprint = .ok 69.049915 ∧
    naturalGas.calculateEmissions = 65.514915 ∧
    electricity.calculateEmissions = 3.535 ∧
    (65.514915 : ℚ) + 3.535 = 69.049915 ∧
    roundsTo 2 naturalGas.calculateEmissions 65.51 ∧
    roundsTo 3 69.049915 69.050 := by
  have hchain : (chainCalls Building.addSource (Building.new "Empire State")
      [naturalGas, electricity]).2 = Building.mk [naturalGas, electricity] "Empire State" := by
    rw [building_chain_of_pos]
    · rfl
    · intro x hx
      simp only [List.mem_cons, List.mem_singleton, List.not_mem_nil, or_false] at hx
      rcases hx with rfl | rfl
      · norm_num [naturalGas]
      · norm_num [electricity]
  refine ⟨?_, ?_, ?_, ?_, ?_, ?_⟩
  · rw [hchain]
    exact empire_state_footprint
  · norm_num [Co2Source.calculateEmissions, naturalGas]
  · norm_num [Co2Source.calculateEmissions, electricity]
  · norm_num
  · norm_num [roundsTo, Co2Source.calculateEmissions, naturalGas]
  · norm_num [roundsTo]

/-! ## The guards on a NaN -/

/-- C11 (evaluation of the code): a source whose quantity is NaN passes the test
`source.quantity <= 0` of `Building::addSource`, `Car::addSecondaryCo2Source` and
`Bicycle::addSource` and is attached, on a fresh building, car and bicycle alike, although
its quantity is not greater than 0. -/
theorem nan_quantity_is_attached :
    (WithNaN.Building.addSource (WithNaN.Building.new "Empire State")
        WithNaN.naturalGasNaN).2.co2_sources = [WithNaN.naturalGasNaN] ∧
    (∃ c, WithNaN.Car.new "Lamborghini Huracan Performante" (.num 12) WithNaN.gasoline
        (.num 8000) = .ok c ∧
      (c.addSecondaryCo2Source WithNaN.naturalGasNaN).2.secondary_co2_sources
        = [WithNaN.naturalGasNaN]) ∧
    (∃ k, WithNaN.Bicycle.new WithNaN.aluminum (.num 320) (.num 75) = .ok k ∧
      (k.addSource WithNaN.naturalGasNaN).2.co2_sources = [WithNaN.naturalGasNaN]) ∧
    WithNaN.Double.lt (.num 0) WithNaN.naturalGasNaN.quantity = false := by
  refine ⟨rfl,
    ⟨WithNaN.Car.mk "Lamborghini Huracan Performante" WithNaN.gasoline [] (.num 12) (.num 8000),
      ?_, rfl⟩,
    ⟨WithNaN.Bicycle.mk WithNaN.aluminum [] (.num 320) (.num 75), ?_, rfl⟩, rfl⟩
  · simp [WithNaN.Car.new, WithNaN.Double.le]
  · simp [WithNaN.Bicycle.new, WithNaN.Double.le]

/-- C16 (evaluation of the code): the building reached from its constructor by attaching one
source of factor 0.005307 > 0 and quantity NaN holds a source, all of its sources have a
strictly positive factor, and its `getCarbonFootprint` returns NaN, which is not greater
than 0. -/
theorem nan_quantity_gives_nan_footprint :
    (WithNaN.Building.addSource (WithNaN.Building.new "Empire State")
        WithNaN.naturalGasNaN).2.co2_sources ≠ [] ∧
    (∀ s ∈ (WithNaN.Building.addSource (WithNaN.Building.new "Empire State")
        WithNaN.naturalGasNaN).2.co2_sources,
      WithNaN.Double.lt (.num 0) s.co2_emission_factor = true) ∧
    (WithNaN.Building.addSource (WithNaN.Building.new "Empire State")
        WithNaN.naturalGasNaN).2.getCarbonFootprint = .ok .nan ∧
    WithNaN.Double.lt (.num 0) .nan = false := by
  have hb : (WithNaN.Building.addSource (WithNaN.Building.new "Empire State")
      WithNaN.naturalGasNaN).2
        = WithNaN.Building.mk [WithNaN.naturalGasNaN] "Empire State" := rfl
  rw [hb]
  refine ⟨List.cons_ne_nil _ _, ?_, rfl, rfl⟩
  intro s hs
  rw [List.mem_singleton.mp hs]
  simp only [WithNaN.naturalGasNaN, WithNaN.Double.lt, decide_eq_true_eq]
  norm_num

/-- C17 (evaluation of the code): a fuel efficiency that is NaN passes the test
`fuelEfficiency <= 0` of `Car::Car`, so the car is constructed and stores a fuel efficiency
that is not greater than 0. -/
theorem nan_fuel_efficiency_is_stored :
    ∃ c, WithNaN.Car.new "Lamborghini Huracan Performante" .nan WithNaN.gasoline (.num 8000)
        = .ok c ∧
      c.fuel_efficiency = .nan ∧
      WithNaN.Double.lt (.num 0) c.fuel_efficiency = false :=
  ⟨_, rfl, rfl, rfl⟩

end CarbonFootprintCalculator
